import Mathlib

/-!
# Verification of the Peltier-control core: protocol engine and control strategies

Shallow embedding of the Modbus TCP frame codec, transport-engine helpers,
device-driver read/write logic and the control strategies of the repository
(Dart `lib/services/custom_modbus_client.dart`, `lib/services/raw_modbus_client.dart`,
JavaScript `services/modbusService.js`, `utils/PIDController.js`,
`utils/RBFAdaptivePIDController.js`, `utils/NeuralMPCController.js`).

Machine integers are modelled as `Nat` with explicit `% 2^16` where the code
truncates; JavaScript/Dart doubles are modelled as `ℚ`; transcendental library
functions (`Math.exp`, `Math.sqrt`, `Math.pow`, `Math.sin`) are passed in as
oracle parameters, so every theorem proved below holds for all models of those
functions; `Math.random()` is modelled as an explicit stream of rationals.
Fallible operations return `Option`/`Except`.
-/

set_option allowUnsafeReducibility true
attribute [semireducible] Rat.add Rat.mul Rat.sub Rat.div Rat.inv Rat.neg
attribute [semireducible] Rat.normalize Rat.maybeNormalize Rat.divInt mkRat
attribute [semireducible] Rat.blt Rat.floor Rat.ceil Rat.ofScientific

namespace Peltier

/-- Big-endian 16-bit read: `ByteData.getUint16(_, Endian.big)` over two bytes. -/
def u16be (hi lo : ℕ) : ℕ := hi * 256 + lo

/-- The two bytes stored by `ByteData.setUint16(_, x, Endian.big)`:
the value is truncated to 16 bits, high byte first. -/
def u16beBytes (x : ℕ) : List ℕ := [x % 65536 / 256, x % 256]

/-- Signed 16-bit reinterpretation used by every temperature decode in the repo:
`if (rawValue > 32767) rawValue = rawValue - 65536`. -/
def toSigned16 (raw : ℕ) : ℤ := if raw > 32767 then (raw : ℤ) - 65536 else (raw : ℤ)

/-- Temperature decode: signed conversion then `rawValue / 10.0`
(`readTemperature` in modbusService.js, `readContainerTemperature` in
raw_modbus_client.dart). -/
def tempOfRaw (raw : ℕ) : ℚ := (toSigned16 raw : ℚ) / 10

/-- `CustomModbusTcpClient._encodeFrame` (custom_modbus_client.dart):
7-byte MBAP header (transactionId, protocolId = 0, length = 1 + pdu.length,
unitId) followed by the PDU.  `setUint16`/`setUint8` truncate their argument. -/
def encodeFrame (pdu : List ℕ) (unitId transactionId : ℕ) : List ℕ :=
  u16beBytes transactionId ++ u16beBytes 0 ++ u16beBytes (1 + pdu.length) ++
    [unitId % 256] ++ pdu

/-- A decoded MBAP frame as returned by `_decodeFrame`. -/
structure DecodedFrame where
  transactionId : ℕ
  unitId : ℕ
  pdu : List ℕ
deriving DecidableEq, Repr

/-- Dart `List.sublist(start, end)`: valid only for `start ≤ end ≤ length`
(otherwise Dart throws a `RangeError`, modelled as `none`). -/
def dartSublist (l : List ℕ) (s e : ℕ) : Option (List ℕ) :=
  if s ≤ e ∧ e ≤ l.length then some ((l.take e).drop s) else none

/-- `CustomModbusTcpClient._decodeFrame` (custom_modbus_client.dart):
rejects frames shorter than 8 bytes, frames with nonzero protocol id, and
frames whose buffered byte count does not cover the declared length; otherwise
extracts the PDU as `data.sublist(7, 6 + length)`.  (An out-of-range sublist,
reachable only when the declared length is 0, raises in Dart; it is modelled
here as a rejection.) -/
def decodeFrame (data : List ℕ) : Option DecodedFrame :=
  if data.length < 8 then none
  else if u16be (data.getD 2 0) (data.getD 3 0) ≠ 0 then none
  else if data.length < 6 + u16be (data.getD 4 0) (data.getD 5 0) then none
  else (dartSublist data 7 (6 + u16be (data.getD 4 0) (data.getD 5 0))).map
    (fun pdu => { transactionId := u16be (data.getD 0 0) (data.getD 1 0),
                  unitId := data.getD 6 0, pdu := pdu })

/-- `RawModbusTcpClient._getNextTransactionId`: `(_transactionId + 1) & 0xFFFF`. -/
def nextTransactionId (t : ℕ) : ℕ := (t + 1) &&& 0xFFFF

/-- `Map.remove` on the pending-request map, modelled as an association list
keyed by transaction id: returns the removed value (if any) and the remaining
map. -/
def assocRemove (k : ℕ) : List (ℕ × α) → Option α × List (ℕ × α)
  | [] => (none, [])
  | (k', v) :: rest =>
      if k' = k then (some v, rest)
      else
        let (r, rest') := assocRemove k rest
        (r, (k', v) :: rest')

/-- `RawModbusTcpClient._processResponse` (raw_modbus_client.dart): ignores
buffers shorter than 8 bytes, extracts the big-endian transaction id from
bytes 0-1, removes the matching pending request, and, when one was pending,
completes it with the PDU `data.sublist(7)`.  Returns the new pending map and
the completed (completer value, pdu) pair, if any. -/
def processResponse (data : List ℕ) (pending : List (ℕ × α)) :
    List (ℕ × α) × Option (α × List ℕ) :=
  if data.length < 8 then (pending, none)
  else
    let transactionId := u16be (data.getD 0 0) (data.getD 1 0)
    let (completer, pending') := assocRemove transactionId pending
    match completer with
    | none => (pending', none)
    | some c => (pending', some (c, data.drop 7))

/-- `RawModbusTcpClient.writeSingleCoil` response validation
(raw_modbus_client.dart): `none` (no response) fails; an exception PDU
(high bit of the function code) fails; otherwise success iff the echo has
length 5, function code 0x05 and echoes the request address.  The written
`value` (like in the source) plays no part in the validation: the echoed coil
value is not inspected.  (Byte indexing uses `getD _ 0`; Dart would raise on
an out-of-range index, which can only happen for echoes shorter than the
5-byte frames produced by `_sendRequest`.) -/
def writeSingleCoilCheck (address : ℕ) (value : Bool) (response : Option (List ℕ)) : Bool :=
  match response with
  | none => false
  | some r =>
      if r.getD 0 0 &&& 0x80 ≠ 0 then false
      else
        decide (r.length = 5) && decide (r.getD 0 0 = 0x05) &&
          decide (u16be (r.getD 1 0) (r.getD 2 0) = address)

/-- `RawModbusTcpClient.writeSingleRegister` response validation
(raw_modbus_client.dart): like the coil write but additionally requires the
echoed register value to equal the written value. -/
def writeSingleRegisterCheck (address value : ℕ) (response : Option (List ℕ)) : Bool :=
  match response with
  | none => false
  | some r =>
      if r.getD 0 0 &&& 0x80 ≠ 0 then false
      else
        decide (r.length = 5) && decide (r.getD 0 0 = 0x06) &&
          decide (u16be (r.getD 1 0) (r.getD 2 0) = address) &&
          decide (u16be (r.getD 3 0) (r.getD 4 0) = value)

/-!
## Device driver

The device itself is not part of the repository; for claims that compare two
read paths over "identical underlying device state" the PLC's holding
registers are modelled as a map `regs : ℕ → ℕ`, and a batch read of `count`
registers starting at `base` returns the corresponding slice.  The result of a
fallible read is `Except Unit (Option (List ℕ))`: `.error` models a thrown
exception, `.ok none` models a resolved-but-empty / null result.
-/

/-- A successful `readHoldingRegisters(base, count)` against device state
`regs`. -/
def batchRead (regs : ℕ → ℕ) (base count : ℕ) : List ℕ :=
  (List.range count).map fun i => regs (base + i)

/-- The guard `registers && registers.data && registers.data.length > 0` of
the primary branch of `readTemperature` (modbusService.js), and
`registers == null || registers.isEmpty` of `readContainerTemperature`
(raw_modbus_client.dart): the read produced at least one register. -/
def batchHasFirst : Except Unit (Option (List ℕ)) → Bool
  | .ok (some (_ :: _)) => true
  | _ => false

/-- The guard `fallbackRegisters != null && fallbackRegisters.length > 6` of
the fallback branch of both temperature readers: the read produced more than
six registers. -/
def batchHasSeventh : Except Unit (Option (List ℕ)) → Bool
  | .ok (some l) => decide (l.length > 6)
  | _ => false

/-- A `TemperatureReading` as produced by `CustomModbusService`
(raw_modbus_client.dart). -/
structure DartTemperatureReading where
  temperature : ℚ
  timestamp : ℚ
  peltierId : ℕ
deriving DecidableEq, Repr

/-- `CustomModbusService.readContainerTemperature` (raw_modbus_client.dart):
batch-reads 10 registers at 2026 and decodes index 0; if that read returned
null/empty, returns `null` outright; if it threw, tries a batch of 10
registers at 2020 and decodes index 6; if the fallback also fails (throws,
returns null, or returns ≤ 6 registers), returns `null`.  It never fabricates
a reading. -/
def dartReadContainerTemperature (now : ℚ)
    (primary fallback : Except Unit (Option (List ℕ))) :
    Option DartTemperatureReading :=
  match primary with
  | .ok (some (r0 :: _)) =>
      some { temperature := tempOfRaw r0, timestamp := now, peltierId := 0 }
  | .ok _ => none
  | .error _ =>
      match fallback with
      | .ok (some l) =>
          if l.length > 6 then
            some { temperature := tempOfRaw (l.getD 6 0), timestamp := now,
                   peltierId := 0 }
          else none
      | _ => none

/-- A temperature reading as produced by `ModbusService.readTemperature` /
`generateMockTemperature` (modbusService.js).  `rawValue`/`address`/`method`
are present only on PLC readings. -/
structure JsTemperatureReading where
  temperature : ℚ
  timestamp : ℚ
  source : String
  rawValue : Option ℕ
  address : Option ℕ
  method : Option String
deriving DecidableEq, Repr

/-- JavaScript `Math.round`: round half toward positive infinity,
i.e. `⌊x + 1/2⌋`. -/
def jsRound (x : ℚ) : ℤ := (x + 1/2).floor

/-- `ModbusService.generateMockTemperature` (modbusService.js):
`baseTemp 5.0` plus `(Math.random() - 0.5) * 2` plus
`Math.sin(Date.now() / 30000) * 0.5`, rounded to one decimal.
`Math.random()` and `Math.sin` are oracle parameters. -/
def jsGenerateMockTemperature (rand nowMs : ℚ) (sinO : ℚ → ℚ) : ℚ :=
  let t := 5 + (rand - 1/2) * 2 + sinO (nowMs / 30000) * (1/2)
  (jsRound (t * 10) : ℚ) / 10

/-- The mock reading object returned by `generateMockTemperature`. -/
def jsMockReading (rand nowMs : ℚ) (sinO : ℚ → ℚ) : JsTemperatureReading :=
  { temperature := jsGenerateMockTemperature rand nowMs sinO,
    timestamp := nowMs, source := "mock",
    rawValue := none, address := none, method := none }

/-- `ModbusService.readTemperature` (modbusService.js).  Returns the reading
together with the resulting `mockMode` flag.  In mock mode it returns a mock
reading immediately; disconnected, it throws.  Otherwise: primary batch read
of 10 registers at 2026, decoding index 0; on failure, fallback batch read of
10 registers at 2020, decoding index 6; when both fail the thrown
`'Both batch reading methods failed'` is caught by the outer catch, which sets
`mockMode = true` and returns a *mock* reading. -/
def jsReadTemperature (mockMode isConnected : Bool)
    (primary fallback : Except Unit (Option (List ℕ)))
    (rand nowMs : ℚ) (sinO : ℚ → ℚ) :
    Except String (JsTemperatureReading × Bool) :=
  if mockMode then .ok (jsMockReading rand nowMs sinO, mockMode)
  else if ¬isConnected then .error "Not connected to Modbus device"
  else
    match primary with
    | .ok (some (r0 :: rest)) =>
        .ok ({ temperature := tempOfRaw r0, timestamp := nowMs,
               source := "plc", rawValue := some ((r0 :: rest).getD 0 0),
               address := some 2026, method := some "batch-2026" }, false)
    | _ =>
        match fallback with
        | .ok (some l) =>
            if l.length > 6 then
              .ok ({ temperature := tempOfRaw (l.getD 6 0), timestamp := nowMs,
                     source := "plc", rawValue := some (l.getD 6 0),
                     address := some 2026,
                     method := some "batch-2020-fallback" }, false)
            else .ok (jsMockReading rand nowMs sinO, true)
        | _ => .ok (jsMockReading rand nowMs sinO, true)

/-- The temperature carried by a successful `jsReadTemperature` result. -/
def jsTempOf : Except String (JsTemperatureReading × Bool) → Option ℚ
  | .ok (r, _) => some r.temperature
  | .error _ => none

/-- `CustomModbusService._readPeltierOutput` (raw_modbus_client.dart):
reads the coil; if the coil read yields data, returns its first bit; if it
yields no data, falls back to a holding-register read of the same address; if
that yields data, returns `value != 0`; if *neither yields data*, returns
`false` ("assuming disabled").  Only a thrown exception reaches the catch
block and returns `null` (unknown). -/
def readPeltierOutput (coilRead : Except Unit (Option (List Bool)))
    (regRead : Except Unit (Option (List ℕ))) : Option Bool :=
  match coilRead with
  | .error _ => none
  | .ok (some (c :: _)) => some c
  | .ok _ =>
      match regRead with
      | .error _ => none
      | .ok (some (v :: _)) => some (v != 0)
      | .ok _ => some false

/-!
## Control strategies

JavaScript numbers are modelled as `ℚ`; `Math.exp`, `Math.sqrt` and
`Math.pow` are oracle parameters (`MathOracle`), so theorems hold for every
model of those functions; `Math.random()` is an explicit stream `ℕ → ℚ`.
-/

/-- Oracle for the transcendental `Math` functions used by the controllers. -/
structure MathOracle where
  exp : ℚ → ℚ
  sqrt : ℚ → ℚ
  pow : ℚ → ℚ → ℚ

/-- JavaScript `Math.sign`. -/
def mathSign (x : ℚ) : ℚ := if x > 0 then 1 else if x < 0 then -1 else 0

/-- JavaScript `b ? 1 : 0`. -/
def b2q (b : Bool) : ℚ := if b then 1 else 0

/-- JavaScript `arr[i]` with an `Int` index, defaulting (like `undefined ||
dflt`) when out of range or negative. -/
def jsGetOr (l : List α) (i : ℤ) (dflt : α) : α :=
  if 0 ≤ i then l.getD i.toNat dflt else dflt

/-- JavaScript `arr.push(x)` followed by `if (arr.length > max) arr.shift()`,
the history-bounding idiom used by all three controllers. -/
def historyPush (h : List α) (maxHistory : ℕ) (r : α) : List α :=
  let h' := h ++ [r]
  if h'.length > maxHistory then h'.tail else h'

/-!
### Actuation governor (minimum-dwell constraint)

`RBFAdaptivePIDController.applyConstraints` keeps, per actuator, the pair
`lastActionState[id]` / `lastActionTime[id]`; that pair is modelled as a
`DwellState`.
-/

/-- Per-actuator dwell state: `lastActionState[id]` and `lastActionTime[id]`. -/
structure DwellState where
  isOn : Bool
  lastTransitionAt : ℚ
deriving DecidableEq, Repr

/-- `RBFAdaptivePIDController.applyConstraints` (RBFAdaptivePIDController.js):
if the desired state matches the current one, returns it and changes nothing;
an actuator currently on is held on while `now - lastActionTime < minOnTime`,
one currently off is held off while `now - lastActionTime < minOffTime`;
otherwise the transition is allowed and the new state and timestamp are
recorded. -/
def applyConstraintsCore (minOnTime minOffTime : ℚ) (d : DwellState)
    (desired : Bool) (now : ℚ) : Bool × DwellState :=
  if d.isOn = desired then (d.isOn, d)
  else if d.isOn && decide (now - d.lastTransitionAt < minOnTime) then (true, d)
  else if !d.isOn && decide (now - d.lastTransitionAt < minOffTime) then (false, d)
  else (desired, { isOn := desired, lastTransitionAt := now })

/-- Fold `applyConstraintsCore` over a tick sequence of (desired, now) pairs,
recording the time and new state of every transition that actually occurs. -/
def transitionLog (minOnTime minOffTime : ℚ) :
    DwellState → List (Bool × ℚ) → List (ℚ × Bool)
  | _, [] => []
  | d, (desired, now) :: rest =>
      if ((applyConstraintsCore minOnTime minOffTime d desired now).2).isOn ≠ d.isOn then
        (now, ((applyConstraintsCore minOnTime minOffTime d desired now).2).isOn) ::
          transitionLog minOnTime minOffTime
            (applyConstraintsCore minOnTime minOffTime d desired now).2 rest
      else transitionLog minOnTime minOffTime
        (applyConstraintsCore minOnTime minOffTime d desired now).2 rest

/-!
### PID + PWM cascade (`utils/PIDController.js`)
-/

/-- One entry of `PIDController.history` (the `result` object built by
`update`; the `P`/`I`/`D` fields are lower-cased here). -/
structure PIDResult where
  timestamp : ℚ
  input : ℚ
  setpoint : ℚ
  error : ℚ
  p : ℚ
  i : ℚ
  d : ℚ
  output : ℚ
  integral : ℚ
deriving DecidableEq, Repr

/-- The mutable fields and configuration of `PIDController`. -/
structure PIDState where
  kp : ℚ
  ki : ℚ
  kd : ℚ
  setpoint : ℚ
  sampleTime : ℚ
  outputMin : ℚ
  outputMax : ℚ
  integralMin : ℚ
  integralMax : ℚ
  lastError : ℚ
  integral : ℚ
  lastTime : ℚ
  lastInput : Option ℚ
  history : List PIDResult
  maxHistory : ℕ
deriving DecidableEq, Repr

/-- `PIDController.update` (PIDController.js).  Returns `null` without
touching any state when called before `sampleTime` has elapsed; otherwise
computes the P/I/D terms (integral with anti-windup clamp, derivative on the
measurement), the cooling-oriented output selection, clamps the output to
`[0, outputMax]`, updates `lastError`/`lastTime`/`lastInput` and appends to
the bounded history.  (The source's initial `output = P + I + D` assignment is
dead: both branches overwrite it.) -/
def pidUpdate (s : PIDState) (currentTemp now : ℚ) : Option PIDResult × PIDState :=
  let dt := (now - s.lastTime) / 1000
  if dt < s.sampleTime / 1000 then (none, s)
  else
    let error := s.setpoint - currentTemp
    let p := s.kp * error
    let integral1 :=
      if error < 0 then s.integral + |error| * dt else s.integral - error * dt
    let integral2 := max s.integralMin (min s.integralMax integral1)
    let i := s.ki * integral2
    let d := match s.lastInput with
      | none => 0
      | some lastInput => -s.kd * ((currentTemp - lastInput) / dt)
    let output1 := if error < 0 then |p| + i + |d| else max 0 (-p + i - d)
    let output2 := max 0 (min s.outputMax output1)
    let result : PIDResult :=
      { timestamp := now, input := currentTemp, setpoint := s.setpoint,
        error := error, p := p, i := i, d := d, output := output2,
        integral := integral2 }
    (some result,
     { s with lastError := error, integral := integral2, lastTime := now,
              lastInput := some currentTemp,
              history := historyPush s.history s.maxHistory result })

/-!
### Hysteresis stable controller (`StableController` in main.js)

`peltierStates[id]` is the pair `{isOn, lastChange}`, modelled as a
`DwellState` (`lastTransitionAt` = `lastChange`).
-/

/-- The result object returned by `StableController.update` (the `P`/`I`/`D`
fields are lower-cased here). -/
structure StableResult where
  timestamp : ℚ
  temperature : ℚ
  setpoint : ℚ
  error : ℚ
  p : ℚ
  i : ℚ
  d : ℚ
  output : ℚ
  peltier1 : Bool
  peltier2 : Bool
  stable : Bool
deriving DecidableEq, Repr

/-- The mutable fields and configuration of `StableController` (main.js). -/
structure StableState where
  setpoint : ℚ
  tolerance : ℚ
  kp : ℚ
  ki : ℚ
  kd : ℚ
  integral : ℚ
  lastError : ℚ
  lastTemp : Option ℚ
  lastTime : ℚ
  dwell1 : DwellState
  dwell2 : DwellState
  minOnTime : ℚ
  minOffTime : ℚ
  tempHistory : List (ℚ × ℚ)
  maxHistory : ℕ
deriving DecidableEq, Repr

/-- `StableController.enforceMinTime` (main.js): the same minimum on/off time
logic as the RBF controller's `applyConstraints` — hold the current state
while its dwell has not elapsed, otherwise record the transition. -/
def enforceMinTime (minOnTime minOffTime : ℚ) (st : DwellState)
    (wantOn : Bool) (now : ℚ) : Bool × DwellState :=
  if st.isOn = wantOn then (st.isOn, st)
  else if st.isOn && decide (now - st.lastTransitionAt < minOnTime) then (true, st)
  else if !st.isOn && decide (now - st.lastTransitionAt < minOffTime) then (false, st)
  else (wantOn, { isOn := wantOn, lastTransitionAt := now })

/-- `StableController.isStable` (main.js): at least 10 samples, maximum
deviation of the last 10 under 0.3 and their average within `tolerance` of
the setpoint.  (`Math.max(...)` over the — nonempty — deviation list is the
fold of `max` from its head.) -/
def stableIsStable (s : StableState) : Bool :=
  if s.tempHistory.length < 10 then false
  else
    let temps := (s.tempHistory.drop (s.tempHistory.length - 10)).map (fun h => h.1)
    let avg := temps.foldl (· + ·) 0 / (temps.length : ℚ)
    let devs := temps.map (fun t => |t - avg|)
    let maxDev := match devs with
      | [] => 0
      | x :: xs => xs.foldl max x
    decide (maxDev < 3/10) && decide (|avg - s.setpoint| < s.tolerance)

/-- `StableController.determinePeltierStates` (main.js): threshold table with
hysteresis over the error and output, then the per-actuator minimum-time
enforcement. -/
def determinePeltierStates (s : StableState) (output error now : ℚ) :
    (Bool × Bool) × StableState :=
  let desired : Bool × Bool :=
    if error > 2 then (true, true)
    else if error > 1 then (true, decide (output > 50))
    else if error > 1/2 then (true, false)
    else if error > -(1/2) then (decide (output > 10), false)
    else (false, false)
  let r1 := enforceMinTime s.minOnTime s.minOffTime s.dwell1 desired.1 now
  let r2 := enforceMinTime s.minOnTime s.minOffTime s.dwell2 desired.2 now
  ((r1.1, r2.1), { s with dwell1 := r1.2, dwell2 := r2.2 })

/-- `StableController.update` (main.js): skips (returns `null`, state
untouched) when less than 0.5 s has elapsed since `lastTime`; otherwise
appends to the bounded temperature history, computes the simple PID terms
(integral clamped to `[-20, 20]`, derivative on the measurement), clamps the
output to `[0, 100]`, runs the hysteresis threshold table with minimum-time
enforcement and records `lastError`/`lastTemp`/`lastTime`. -/
def stableUpdate (s : StableState) (currentTemp now : ℚ) :
    Option StableResult × StableState :=
  let dt := (now - s.lastTime) / 1000
  if dt < 1/2 then (none, s)
  else
    let s0 := { s with
      tempHistory := historyPush s.tempHistory s.maxHistory (currentTemp, now) }
    let error := currentTemp - s.setpoint
    let p := s.kp * error
    let integral1 := max (-20) (min 20 (s.integral + error * dt))
    let i := s.ki * integral1
    let d := match s.lastTemp with
      | none => 0
      | some lastTemp => s.kd * ((currentTemp - lastTemp) / dt)
    let output := max 0 (min 100 (p + i + d))
    let ctrl := determinePeltierStates s0 output error now
    (some { timestamp := now, temperature := currentTemp, setpoint := s.setpoint,
            error := error, p := p, i := i, d := d, output := output,
            peltier1 := (ctrl.1).1, peltier2 := (ctrl.1).2,
            stable := stableIsStable s0 },
     { ctrl.2 with integral := integral1, lastError := error,
                   lastTemp := some currentTemp, lastTime := now })

/-!
### RBF neural-gain adaptive PID (`utils/RBFAdaptivePIDController.js`)
-/

/-- An RBF center `{error, errorDot}`. -/
structure RBFCenter where
  error : ℚ
  errorDot : ℚ
deriving DecidableEq, Repr

/-- The gain triple `{kp, ki, kd}`. -/
structure RBFGains where
  kp : ℚ
  ki : ℚ
  kd : ℚ
deriving DecidableEq, Repr

/-- The `{P, I, D, total}` record returned by `computeNonlinearPID`. -/
structure RBFPid where
  p : ℚ
  i : ℚ
  d : ℚ
  total : ℚ
deriving DecidableEq, Repr

/-- The mutable fields and configuration of `RBFAdaptivePIDController`.
`dwell1`/`dwell2` model `lastActionState`/`lastActionTime` for actuators 1
and 2 (the only keys ever used); `dt` is the (unused-by-`update`) configured
step. -/
structure RBFState where
  setpoint : ℚ
  dt : ℚ
  kp : ℚ
  ki : ℚ
  kd : ℚ
  integral : ℚ
  lastError : ℚ
  lastTime : ℚ
  numCenters : ℕ
  learningRate : ℚ
  spread : ℚ
  centers : List RBFCenter
  wkp : List ℚ
  wki : List ℚ
  wkd : List ℚ
  beta : ℚ
  maxGain : ℚ
  minGain : ℚ
  errorHistory : List ℚ
  gainHistory : List RBFGains
  maxHistory : ℕ
  nonlinearGain : ℚ
  errorDeadband : ℚ
  minOnTime : ℚ
  minOffTime : ℚ
  dwell1 : DwellState
  dwell2 : DwellState

/-- `initializeCenters`: `numCenters` centers uniformly spread over error
range `[-10, 10]` and error-rate range `[-2, 2]`. -/
def initializeCenters (numCenters : ℕ) : List RBFCenter :=
  (List.range numCenters).map fun i =>
    { error := -(20 : ℚ)/2 + (i : ℚ) * 20 / ((numCenters : ℚ) - 1),
      errorDot := -2 + (i : ℚ) * 4 / ((numCenters : ℚ) - 1) }

/-- `calculateRBFActivation`: Gaussian activation
`exp(-((dist/spread)^2))` of each center, `dist` the Euclidean distance from
`(error, errorDot)`; the loop runs over `i < numCenters`. -/
def calculateRBFActivation (o : MathOracle) (s : RBFState)
    (error errorDot : ℚ) : List ℚ :=
  (List.range s.numCenters).map fun i =>
    let c := s.centers.getD i ⟨0, 0⟩
    let distance := o.sqrt (o.pow (error - c.error) 2 + o.pow (errorDot - c.errorDot) 2)
    o.exp (-(o.pow (distance / s.spread) 2))

/-- The weighted sum `Σ_{i<n} w[i] * activations[i]` of `adaptPIDGains`. -/
def rbfSum (w act : List ℚ) (n : ℕ) : ℚ :=
  (List.range n).foldl (fun acc i => acc + w.getD i 0 * act.getD i 0) 0

/-- `adaptPIDGains`: RBF-weighted gains, nonlinear scaling of the kp/kd
channels by `1 + nonlinearGain*|error|/10`, and the safety clamp of every
gain to `[minGain, maxGain]`.  (The `errorDot` parameter is unused by the
source body.) -/
def adaptPIDGains (s : RBFState) (error errorDot : ℚ)
    (activations : List ℚ) : RBFState :=
  let kp := rbfSum s.wkp activations s.numCenters
  let ki := rbfSum s.wki activations s.numCenters
  let kd := rbfSum s.wkd activations s.numCenters
  let errorMagnitude := |error|
  let nonlinearScale := 1 + s.nonlinearGain * errorMagnitude / 10
  { s with
    kp := max s.minGain (min s.maxGain (kp * nonlinearScale)),
    ki := max s.minGain (min s.maxGain ki),
    kd := max s.minGain (min s.maxGain (kd * nonlinearScale)) }

/-- `updateWeights`: per-center gradient step scaled by the stability factor
`exp(-|error|)` with forgetting factor `beta`, then clamping `wkp` to
`[-1, 1]` and `wki`/`wkd` to `[-0.5, 0.5]`; the loop runs over
`i < numCenters`.  (The `controlOutput` parameter is unused by the source
body.) -/
def updateWeights (o : MathOracle) (s : RBFState) (error errorDot : ℚ)
    (activations : List ℚ) (controlOutput : ℚ) : RBFState :=
  let adaptiveRate := s.learningRate * o.exp (-|error|)
  let wkp' := (List.range s.numCenters).map fun i =>
    let activation := activations.getD i 0
    max (-1) (min 1
      (s.beta * s.wkp.getD i 0 - adaptiveRate * error * activation * |error|))
  let wki' := (List.range s.numCenters).map fun i =>
    let activation := activations.getD i 0
    max (-(1/2)) (min (1/2)
      (s.beta * s.wki.getD i 0 - adaptiveRate * error * activation * s.integral))
  let wkd' := (List.range s.numCenters).map fun i =>
    let activation := activations.getD i 0
    max (-(1/2)) (min (1/2)
      (s.beta * s.wkd.getD i 0 - adaptiveRate * error * activation * errorDot))
  { s with wkp := wkp', wki := wki', wkd := wkd' }

/-- `computeNonlinearPID`: deadbanded nonlinear P term (power-law boost above
2° of error), integral accumulation with the ×0.7 sign-change reset and the
`[-10, 10]` anti-windup clamp, derivative `kd * errorDot`; records
`lastError` and `lastTime`. -/
def computeNonlinearPID (o : MathOracle) (s : RBFState)
    (error errorDot now : ℚ) : RBFPid × RBFState :=
  let dt := (now - s.lastTime) / 1000
  let p :=
    if |error| > s.errorDeadband then
      s.kp * error +
        (if |error| > 2 then
          mathSign error * s.kp * (1/2) * o.pow (|error| - 2) (13/10)
        else 0)
    else 0
  let integral1 := s.integral + error * dt
  let integral2 :=
    if (error > 0 ∧ s.lastError < 0) ∨ (error < 0 ∧ s.lastError > 0) then
      integral1 * (7/10)
    else integral1
  let integral3 := max (-10) (min 10 integral2)
  let i := s.ki * integral3
  let d := s.kd * errorDot
  ({ p := p, i := i, d := d, total := p + i + d },
   { s with integral := integral3, lastError := error, lastTime := now })

/-- `generatePeltierControl`: error-band table from `currentTemp - setpoint`
and the PID output, then the per-actuator dwell constraints. -/
def generatePeltierControl (s : RBFState) (pidOutput currentTemp now : ℚ) :
    (Bool × Bool) × RBFState :=
  let error := currentTemp - s.setpoint
  let desired : Bool × Bool :=
    if error > 2 then (true, decide (pidOutput > 3))
    else if error > 1 then (decide (pidOutput > 1), decide (pidOutput > 5))
    else if error > 1/2 then (decide (pidOutput > 1/2), false)
    else if error > -(1/2) then (decide (pidOutput > 2), false)
    else (false, false)
  let r1 := applyConstraintsCore s.minOnTime s.minOffTime s.dwell1 desired.1 now
  let r2 := applyConstraintsCore s.minOnTime s.minOffTime s.dwell2 desired.2 now
  ((r1.1, r2.1), { s with dwell1 := r1.2, dwell2 := r2.2 })

/-- The diagnostics object returned by `RBFAdaptivePIDController.update`. -/
structure RBFResult where
  timestamp : ℚ
  temperature : ℚ
  setpoint : ℚ
  error : ℚ
  errorDot : ℚ
  pid : RBFPid
  gains : RBFGains
  peltier1 : Bool
  peltier2 : Bool
  stable : Bool
  rbfActivations : List ℚ
deriving DecidableEq, Repr

/-- `RBFAdaptivePIDController.update`: skips (returns `null`, state
untouched) when less than 0.5 s has elapsed since `lastTime`; otherwise runs
activation → gain adaptation → nonlinear PID → Peltier control with dwell
constraints → online weight update, then appends to the bounded error/gain
histories. -/
def rbfUpdate (o : MathOracle) (s : RBFState) (currentTemp now : ℚ) :
    Option RBFResult × RBFState :=
  let error := currentTemp - s.setpoint
  let dt := (now - s.lastTime) / 1000
  if dt < 1/2 then (none, s)
  else
    let errorDot := match s.errorHistory.getLast? with
      | some last => (error - last) / dt
      | none => 0
    let activations := calculateRBFActivation o s error errorDot
    let s1 := adaptPIDGains s error errorDot activations
    let pidr := computeNonlinearPID o s1 error errorDot now
    let ctrl := generatePeltierControl pidr.2 (pidr.1).total currentTemp now
    let s4 := updateWeights o ctrl.2 error errorDot activations (pidr.1).total
    let eh := s4.errorHistory ++ [error]
    let gh := s4.gainHistory ++ [⟨s4.kp, s4.ki, s4.kd⟩]
    let bounded := decide (eh.length > s4.maxHistory)
    (some { timestamp := now, temperature := currentTemp, setpoint := s.setpoint,
            error := error, errorDot := errorDot, pid := pidr.1,
            gains := ⟨s4.kp, s4.ki, s4.kd⟩, peltier1 := (ctrl.1).1,
            peltier2 := (ctrl.1).2,
            stable := decide (|error| < 3/10) && decide (|errorDot| < 1/10),
            rbfActivations := activations },
     { s4 with errorHistory := if bounded then eh.tail else eh,
               gainHistory := if bounded then gh.tail else gh })

/-- Run a sequence of `(currentTemp, now)` samples through `rbfUpdate`,
keeping only the final state. -/
def rbfRun (o : MathOracle) (s : RBFState) : List (ℚ × ℚ) → RBFState
  | [] => s
  | (t, now) :: rest => rbfRun o (rbfUpdate o s t now).2 rest

/-!
### Neural model-predictive controller (`utils/NeuralMPCController.js`)

Weight matrices are modelled as functions (`W1 : ℕ → ℕ → ℚ` for
`W1[i][j]`, `W2 : ℕ → ℚ` for the single output column `W2[j][0]`, `b2 : ℚ`
for `b2[0]`), matching the in-place index-bounded update loops of the source;
`Math.random()` is an explicit stream `ℕ → ℚ` consumed at increasing indices
in program order.
-/

/-- A per-tick action pair `{peltier1, peltier2}`. -/
structure MPCAction where
  peltier1 : Bool
  peltier2 : Bool
deriving DecidableEq, Repr

/-- One entry of `predictionErrors`. -/
structure MPCPredErr where
  predicted : ℚ
  actual : ℚ
  loss : ℚ
  timestamp : ℚ
deriving DecidableEq, Repr

/-- The mutable fields and configuration of `NeuralMPCController`.
`dwell1`/`dwell2` model `lastActionState`/`lastActionTime` for actuators 1
and 2.  `temperatureHistory` entries are `(temp, time)` pairs. -/
structure MPCState where
  setpoint : ℚ
  predictionHorizon : ℕ
  controlHorizon : ℕ
  dt : ℚ
  inputSize : ℕ
  hiddenSize : ℕ
  outputSize : ℕ
  w1 : ℕ → ℕ → ℚ
  b1 : ℕ → ℚ
  w2 : ℕ → ℚ
  b2 : ℚ
  learningRate : ℚ
  momentumFactor : ℚ
  adaptiveLearning : Bool
  vw1 : ℕ → ℕ → ℚ
  vb1 : ℕ → ℚ
  vw2 : ℕ → ℚ
  vb2 : ℚ
  temperatureHistory : List (ℚ × ℚ)
  actionHistory : List MPCAction
  predictionErrors : List MPCPredErr
  maxHistory : ℕ
  minOnTime : ℚ
  minOffTime : ℚ
  dwell1 : DwellState
  dwell2 : DwellState
  totalPredictions : ℕ
  accuratePredictions : ℕ
  modelConfidence : ℚ

/-- `NeuralMPCController.forward`: hidden layer `relu(b1 + input·W1)` over
`j < hiddenSize` (inner sum over `i < inputSize`), then the linear output
`b2 + hidden·W2`. -/
def mpcForward (s : MPCState) (input : List ℚ) : ℚ × List ℚ :=
  let hidden := (List.range s.hiddenSize).map fun j =>
    max 0 ((List.range s.inputSize).foldl
      (fun sum i => sum + input.getD i 0 * s.w1 i j) (s.b1 j))
  let output := (List.range s.hiddenSize).foldl
    (fun acc j => acc + hidden.getD j 0 * s.w2 j) s.b2
  (output, hidden)

/-- `NeuralMPCController.backward`: adaptive learning rate (decay ×0.999 when
`|error| < 0.1`, growth ×1.001 capped at 0.01 otherwise), then
momentum-gradient updates of `W2`/`b2` followed by `W1`/`b1`; the
hidden-layer gradient reads the *updated* `W2`, as the source does.  Returns
the squared-error loss and the new state. -/
def mpcBackward (s : MPCState) (input hidden : List ℚ)
    (predictedChange actualChange : ℚ) : ℚ × MPCState :=
  let error := predictedChange - actualChange
  let loss := error * error
  let lr :=
    if s.adaptiveLearning then
      if |error| < 1/10 then s.learningRate * (999/1000)
      else min (1/100) (s.learningRate * (1001/1000))
    else s.learningRate
  let dOutput := 2 * error
  let vw2' := fun j =>
    if j < s.hiddenSize then
      s.momentumFactor * s.vw2 j - lr * dOutput * hidden.getD j 0
    else s.vw2 j
  let w2' := fun j => if j < s.hiddenSize then s.w2 j + vw2' j else s.w2 j
  let vb2' := s.momentumFactor * s.vb2 - lr * dOutput
  let b2' := s.b2 + vb2'
  let dHidden := fun j => if hidden.getD j 0 > 0 then dOutput * w2' j else 0
  let vw1' := fun i j =>
    if i < s.inputSize ∧ j < s.hiddenSize then
      s.momentumFactor * s.vw1 i j - lr * dHidden j * input.getD i 0
    else s.vw1 i j
  let w1' := fun i j =>
    if i < s.inputSize ∧ j < s.hiddenSize then s.w1 i j + vw1' i j else s.w1 i j
  let vb1' := fun j =>
    if j < s.hiddenSize then s.momentumFactor * s.vb1 j - lr * dHidden j
    else s.vb1 j
  let b1' := fun j => if j < s.hiddenSize then s.b1 j + vb1' j else s.b1 j
  (loss, { s with learningRate := lr, vw2 := vw2', w2 := w2', vb2 := vb2',
                  b2 := b2', vw1 := vw1', w1 := w1', vb1 := vb1', b1 := b1' })

/-- `predictTemperatureChange`: normalized 6-vector through the network,
output scaled by 0.5. -/
def mpcPredictTemperatureChange (s : MPCState) (temp : ℚ)
    (peltier1 peltier2 : Bool) (tempPrev : ℚ)
    (action1Prev action2Prev : Bool) : ℚ :=
  let input := [(temp - s.setpoint) / 10, b2q peltier1, b2q peltier2,
                (tempPrev - s.setpoint) / 10, b2q action1Prev, b2q action2Prev]
  (mpcForward s input).1 * (1/2)

/-- The loop body of `simulateTrajectory`: model delta plus the fixed physics
bias (cooling −0.1·dt when any Peltier is on, ambient heating +0.05·dt
otherwise). -/
def mpcSimulateAux (s : MPCState) :
    ℚ → ℚ → Bool → Bool → List MPCAction → List ℚ
  | _, _, _, _, [] => []
  | temp, tempPrev, a1, a2, actions :: rest =>
      let deltaT := mpcPredictTemperatureChange s temp actions.peltier1
        actions.peltier2 tempPrev a1 a2
      let temp1 := temp + deltaT
      let temp2 :=
        if actions.peltier1 || actions.peltier2 then temp1 - (1/10) * s.dt
        else temp1 + (1/20) * s.dt
      temp2 :: mpcSimulateAux s temp2 temp actions.peltier1 actions.peltier2 rest

/-- `simulateTrajectory`: starts from the current temperature and the current
`lastActionState`, rolling the candidate sequence through the learned model. -/
def mpcSimulateTrajectory (s : MPCState) (currentTemp : ℚ)
    (controlSequence : List MPCAction) : List ℚ :=
  currentTemp :: mpcSimulateAux s currentTemp currentTemp s.dwell1.isOn
    s.dwell2.isOn controlSequence

/-- Candidate-sequence generation in `optimizeControl`: for each step the
action probabilities are biased by the temperature error, and two
`Math.random()` draws decide the two Peltier bits. -/
def mpcGenSequence (s : MPCState) (rand : ℕ → ℚ) (base : ℕ)
    (currentTemp : ℚ) : List MPCAction :=
  (List.range s.controlHorizon).map fun t =>
    let error := currentTemp - s.setpoint
    let p1Prob := max (1/10) (min (9/10) (1/2 + error * (1/10)))
    let p2Prob := max 0 (min (4/5) (error * (1/10)))
    { peltier1 := decide (rand (base + 2*t) < p1Prob),
      peltier2 := decide (rand (base + 2*t + 1) < p2Prob) }

/-- The cost of one candidate sequence in `optimizeControl`: sum of squared
tracking errors over the simulated trajectory (skipping the initial point)
plus the actuation-effort penalty (0.1 per Peltier-1 action, 0.2 per
Peltier-2 action). -/
def mpcCost (s : MPCState) (currentTemp : ℚ) (sequence : List MPCAction) : ℚ :=
  let trajectory := mpcSimulateTrajectory s currentTemp sequence
  let trajCost := (trajectory.drop 1).foldl
    (fun acc t => acc + (t - s.setpoint) * (t - s.setpoint)) 0
  sequence.foldl
    (fun acc a => acc + (if a.peltier1 then 1/10 else 0) +
      (if a.peltier2 then 1/5 else 0)) trajCost

/-- `costs.indexOf(Math.min(...costs))`: index of the first occurrence of the
minimum. -/
def idxOfMin : List ℚ → ℕ
  | [] => 0
  | c :: rest => (c :: rest).findIdx fun x => decide (x = rest.foldl min c)

/-- `optimizeControl`: random shooting with 20 candidate sequences; returns
the first sequence attaining the minimal cost.  `base` is the position in the
random stream at which the call starts drawing. -/
def mpcOptimizeControl (s : MPCState) (rand : ℕ → ℚ) (base : ℕ)
    (currentTemp : ℚ) : List MPCAction :=
  let numSequences := 20
  let sequences := (List.range numSequences).map fun sq =>
    mpcGenSequence s rand (base + sq * s.controlHorizon * 2) currentTemp
  let costs := sequences.map (mpcCost s currentTemp)
  sequences.getD (idxOfMin costs) []

/-- `NeuralMPCController.applyConstraints`: a requested turn-off is overridden
while the minimum on-time has not elapsed, a requested turn-on while the
minimum off-time has not elapsed; recording of the transition happens in
`update`, not here. -/
def mpcApplyConstraints (s : MPCState) (action : MPCAction) (now : ℚ) : MPCAction :=
  let timeSince1 := now - s.dwell1.lastTransitionAt
  let p1 :=
    if s.dwell1.isOn && !action.peltier1 && decide (timeSince1 < s.minOnTime) then
      true
    else if !s.dwell1.isOn && action.peltier1 && decide (timeSince1 < s.minOffTime) then
      false
    else action.peltier1
  let timeSince2 := now - s.dwell2.lastTransitionAt
  let p2 :=
    if s.dwell2.isOn && !action.peltier2 && decide (timeSince2 < s.minOnTime) then
      true
    else if !s.dwell2.isOn && action.peltier2 && decide (timeSince2 < s.minOffTime) then
      false
    else action.peltier2
  { peltier1 := p1, peltier2 := p2 }

/-- The diagnostics object returned by `NeuralMPCController.update`. -/
structure MPCResult where
  timestamp : ℚ
  temperature : ℚ
  setpoint : ℚ
  error : ℚ
  peltier1 : Bool
  peltier2 : Bool
  predictedTrajectory : List ℚ
  modelConfidence : ℚ
  learningRate : ℚ
  controlHorizon : ℕ
  stable : Bool
deriving DecidableEq, Repr

/-- `NeuralMPCController.update`: *unconditionally* (there is no
minimum-sample-interval guard) learns from the previous step when at least
two samples exist, appends the current sample to the bounded temperature
history, optimizes and constrains the next action, records it (updating the
per-actuator transition state when the constrained action differs), and
returns a decision object — it never returns `null`. -/
def mpcUpdate (rand : ℕ → ℚ) (base : ℕ) (s : MPCState)
    (currentTemp now : ℚ) : MPCResult × MPCState :=
  let s1 :=
    if s.temperatureHistory.length > 1 then
      let prevTemp :=
        (jsGetOr s.temperatureHistory ((s.temperatureHistory.length : ℤ) - 2) (0, 0)).1
      let prevActions :=
        jsGetOr s.actionHistory ((s.actionHistory.length : ℤ) - 2) ⟨false, false⟩
      let prevPrevTemp :=
        if s.temperatureHistory.length > 2 then
          (jsGetOr s.temperatureHistory ((s.temperatureHistory.length : ℤ) - 3) (0, 0)).1
        else prevTemp
      let prevPrevActions :=
        if s.actionHistory.length > 2 then
          jsGetOr s.actionHistory ((s.actionHistory.length : ℤ) - 3) ⟨false, false⟩
        else prevActions
      let input := [(prevTemp - s.setpoint) / 10, b2q prevActions.peltier1,
                    b2q prevActions.peltier2, (prevPrevTemp - s.setpoint) / 10,
                    b2q prevPrevActions.peltier1, b2q prevPrevActions.peltier2]
      let fw := mpcForward s input
      let predictedChange := fw.1 * (1/2)
      let actualChange := currentTemp - prevTemp
      let bw := mpcBackward s input fw.2 predictedChange actualChange
      let total' := (bw.2).totalPredictions + 1
      let acc' :=
        if |predictedChange - actualChange| < 1/5 then (bw.2).accuratePredictions + 1
        else (bw.2).accuratePredictions
      { bw.2 with
        totalPredictions := total',
        accuratePredictions := acc',
        modelConfidence := (acc' : ℚ) / max 1 (total' : ℚ),
        predictionErrors := historyPush (bw.2).predictionErrors 50
          { predicted := predictedChange, actual := actualChange, loss := bw.1,
            timestamp := now } }
    else s
  let s2 := { s1 with
    temperatureHistory := historyPush s1.temperatureHistory s1.maxHistory
      (currentTemp, now) }
  let optimalSequence := mpcOptimizeControl s2 rand base currentTemp
  let nextAction := optimalSequence.getD 0 ⟨false, false⟩
  let constrainedAction := mpcApplyConstraints s2 nextAction now
  let dwell1' :=
    if constrainedAction.peltier1 ≠ s2.dwell1.isOn then
      DwellState.mk constrainedAction.peltier1 now
    else s2.dwell1
  let dwell2' :=
    if constrainedAction.peltier2 ≠ s2.dwell2.isOn then
      DwellState.mk constrainedAction.peltier2 now
    else s2.dwell2
  let s3 := { s2 with
    actionHistory := historyPush s2.actionHistory s2.maxHistory constrainedAction,
    dwell1 := dwell1', dwell2 := dwell2' }
  let error := currentTemp - s.setpoint
  ({ timestamp := now, temperature := currentTemp, setpoint := s.setpoint,
     error := error, peltier1 := constrainedAction.peltier1,
     peltier2 := constrainedAction.peltier2,
     predictedTrajectory := mpcSimulateTrajectory s3 currentTemp optimalSequence,
     modelConfidence := s3.modelConfidence, learningRate := s3.learningRate,
     controlHorizon := s3.controlHorizon, stable := decide (|error| < 1/2) }, s3)

/-!
### Concrete instances used by witnesses and counterexamples
-/

/-- A trivial model of the transcendental `Math` functions (any model works
for the theorems below). -/
def trivialOracle : MathOracle := { exp := fun _ => 0, sqrt := fun _ => 0, pow := fun _ _ => 0 }

/-- A `PIDController` built with the constructor defaults of PIDController.js
at time `t0`. -/
def pidInitialState (t0 : ℚ) : PIDState :=
  { kp := 2, ki := 1/2, kd := 1/10, setpoint := 5, sampleTime := 1000,
    outputMin := 0, outputMax := 100, integralMin := 0, integralMax := 100,
    lastError := 0, integral := 0, lastTime := t0, lastInput := none,
    history := [], maxHistory := 100 }

/-- A `StableController` built with the constructor defaults of main.js at
time `t0`. -/
def stableInitialState (t0 : ℚ) : StableState :=
  { setpoint := 5, tolerance := 1/2, kp := 3, ki := 1/10, kd := 1/2,
    integral := 0, lastError := 0, lastTemp := none, lastTime := t0,
    dwell1 := ⟨false, 0⟩, dwell2 := ⟨false, 0⟩,
    minOnTime := 5000, minOffTime := 3000,
    tempHistory := [], maxHistory := 20 }

/-- An `RBFAdaptivePIDController` built with the constructor defaults of
RBFAdaptivePIDController.js at time `t0`. -/
def rbfInitialState (t0 : ℚ) : RBFState :=
  { setpoint := 5, dt := 1, kp := 2, ki := 1/2, kd := 3/10,
    integral := 0, lastError := 0, lastTime := t0,
    numCenters := 5, learningRate := 1/100, spread := 2,
    centers := initializeCenters 5,
    wkp := List.replicate 5 (1/10), wki := List.replicate 5 (1/10),
    wkd := List.replicate 5 (1/10),
    beta := 19/20, maxGain := 10, minGain := 1/10,
    errorHistory := [], gainHistory := [], maxHistory := 50,
    nonlinearGain := 3/2, errorDeadband := 1/10,
    minOnTime := 3000, minOffTime := 2000,
    dwell1 := ⟨false, 0⟩, dwell2 := ⟨false, 0⟩ }

/-- A `NeuralMPCController` configured with `controlHorizon := 1`,
`hiddenSize := 1` and zero Xavier draws, one sample (5 °C at t = 1000 ms)
already recorded by a previous `update` call. -/
def mpcSmallState : MPCState :=
  { setpoint := 5, predictionHorizon := 10, controlHorizon := 1, dt := 1,
    inputSize := 6, hiddenSize := 1, outputSize := 1,
    w1 := fun _ _ => 0, b1 := fun _ => 0, w2 := fun _ => 0, b2 := 0,
    learningRate := 1/1000, momentumFactor := 9/10, adaptiveLearning := true,
    vw1 := fun _ _ => 0, vb1 := fun _ => 0, vw2 := fun _ => 0, vb2 := 0,
    temperatureHistory := [(5, 1000)], actionHistory := [⟨false, false⟩],
    predictionErrors := [], maxHistory := 100,
    minOnTime := 3000, minOffTime := 2000,
    dwell1 := ⟨false, 0⟩, dwell2 := ⟨false, 0⟩,
    totalPredictions := 0, accuratePredictions := 0, modelConfidence := 1/2 }

/-- A PDU long enough to overflow the 16-bit MBAP length field
(`1 + 65535 = 65536 ≡ 0 (mod 2^16)`). -/
def hugePdu : List ℕ := List.replicate 65535 0

/-- The effective gains lie within the configured `[minGain, maxGain]` band. -/
@[reducible] def gainsInRange (s : RBFState) : Prop :=
  s.minGain ≤ s.kp ∧ s.kp ≤ s.maxGain ∧
  s.minGain ≤ s.ki ∧ s.ki ≤ s.maxGain ∧
  s.minGain ≤ s.kd ∧ s.kd ≤ s.maxGain

/-!
## Theorems
-/

/-- C3: decoding a temperature register reinterprets raw values above 32767
as `raw - 65536` (two's complement) and divides by ten; in particular raw 224
decodes to 22.4 °C and raw 65506 to −3.0 °C; two big-endian bytes always form
an unsigned 16-bit value. -/
theorem C3_signed_temperature_decode :
    tempOfRaw 224 = 22.4 ∧ tempOfRaw 65506 = -3.0 ∧
    (∀ raw : ℕ, 32767 < raw → tempOfRaw raw = ((raw : ℚ) - 65536) / 10) ∧
    (∀ raw : ℕ, raw ≤ 32767 → tempOfRaw raw = (raw : ℚ) / 10) ∧
    (∀ hi lo : ℕ, hi ≤ 255 → lo ≤ 255 → u16be hi lo ≤ 65535) := by
  refine ⟨by decide, by decide, fun raw h => ?_, fun raw h => ?_,
    fun hi lo h1 h2 => ?_⟩
  · simp only [tempOfRaw, toSigned16, if_pos (by exact_mod_cast h)]
    push_cast
    ring
  · have hn : ¬ (raw > 32767) := by omega
    simp only [tempOfRaw, toSigned16, if_neg hn]
    push_cast
    ring
  · simp only [u16be]
    omega

/-- C3 witness: the general signed branch applied at raw 40000. -/
theorem C3_witness :
    32767 < 40000 ∧ tempOfRaw 40000 = ((40000 : ℚ) - 65536) / 10 :=
  ⟨by decide, C3_signed_temperature_decode.2.2.1 40000 (by decide)⟩

/-- C5: transaction-id allocation is `(previous + 1) mod 2^16` (the source's
`(t + 1) & 0xFFFF`), so the id after 0xFFFF is 0x0000, and two pending
requests keyed 0xFFFF and 0x0000 are distinct entries of the pending map,
each completed only by the response carrying its own transaction id. -/
theorem C5_transaction_id_wrap :
    (∀ t : ℕ, nextTransactionId t = (t + 1) % 65536) ∧
    nextTransactionId 0xFFFF = 0 ∧
    (∀ a b : ℕ,
      processResponse [255, 255, 0, 0, 0, 5, 1, 3, 2, 0, 10] [(65535, a), (0, b)] =
        ([(0, b)], some (a, [3, 2, 0, 10])) ∧
      processResponse [0, 0, 0, 0, 0, 5, 1, 6, 2, 0, 10] [(65535, a), (0, b)] =
        ([(65535, a)], some (b, [6, 2, 0, 10]))) := by
  refine ⟨fun t => ?_, by decide, fun a b => ⟨rfl, rfl⟩⟩
  have h := Nat.and_pow_two_sub_one_eq_mod (t + 1) 16
  norm_num at h
  exact h

/-- C7 counterexample: when the coil read and the register-read fallback both
complete without data (a total read failure), `_readPeltierOutput` returns
`false` — i.e. reports the actuator "off" — not "unknown" as the claim
states. -/
theorem C7_counterexample : readPeltierOutput (.ok none) (.ok none) = some false := by
  decide

/-- C7 (amended): `_readPeltierOutput` reads the coil first and falls back to
the holding register; it returns "unknown" (`none`) only when an exception is
thrown during the reads, and returns "off" (`some false`, "assuming
disabled") when both reads complete without data. -/
theorem C7_read_actuator_fallback :
    (∀ reg, readPeltierOutput (.error ()) reg = none) ∧
    (∀ (c : Bool) (cs : List Bool) (reg : Except Unit (Option (List ℕ))),
      readPeltierOutput (.ok (some (c :: cs))) reg = some c) ∧
    readPeltierOutput (.ok none) (.error ()) = none ∧
    readPeltierOutput (.ok (some [])) (.error ()) = none ∧
    (∀ (v : ℕ) (vs : List ℕ),
      readPeltierOutput (.ok none) (.ok (some (v :: vs))) = some (v != 0) ∧
      readPeltierOutput (.ok (some [])) (.ok (some (v :: vs))) = some (v != 0)) ∧
    readPeltierOutput (.ok none) (.ok none) = some false ∧
    readPeltierOutput (.ok none) (.ok (some [])) = some false ∧
    readPeltierOutput (.ok (some [])) (.ok none) = some false ∧
    readPeltierOutput (.ok (some [])) (.ok (some [])) = some false :=
  ⟨fun _ => rfl, fun _ _ _ => rfl, rfl, rfl, fun _ _ => ⟨rfl, rfl⟩,
   rfl, rfl, rfl, rfl⟩

/-- C1 counterexample: with both batch reads failing (and not already in mock
mode), the JavaScript `readTemperature` does *not* return a read-failure
error: the outer catch switches the service to mock mode and returns a
fabricated reading with `source: 'mock'`. -/
theorem C1_counterexample :
    jsReadTemperature false true (.ok none) (.ok none) (1/2) 0 (fun _ => 0) =
      .ok ({ temperature := 5, timestamp := 0, source := "mock",
             rawValue := none, address := none, method := none }, true) := by
  rw [show jsReadTemperature false true (.ok none) (.ok none) (1/2) 0 (fun _ => 0) =
        .ok (jsMockReading (1/2) 0 (fun _ => 0), true) from rfl,
      show jsMockReading (1/2) 0 (fun _ => 0) =
        { temperature := 5, timestamp := 0, source := "mock",
          rawValue := none, address := none, method := none } from by decide]

/-- C1 (amended): when both the primary (base 2026) and fallback (base 2020)
batch reads fail, the Dart `readContainerTemperature` returns `null` without
fabricating data, but the JavaScript `readTemperature` itself switches to
mock mode and returns a synthetic reading — the fallback-to-synthetic policy
is inside the JS device driver, not only in the control loop. -/
theorem C1_both_fail_behaviour :
    (∀ (now : ℚ) (p f : Except Unit (Option (List ℕ))),
      batchHasFirst p = false → batchHasSeventh f = false →
      dartReadContainerTemperature now p f = none) ∧
    (∀ (p f : Except Unit (Option (List ℕ))) (rand nowMs : ℚ) (sinO : ℚ → ℚ),
      batchHasFirst p = false → batchHasSeventh f = false →
      jsReadTemperature false true p f rand nowMs sinO =
        .ok (jsMockReading rand nowMs sinO, true)) := by
  constructor
  · rintro now (⟨⟩ | (_ | ⟨(_ | ⟨r0, rest⟩)⟩)) f h1 h2
    · rcases f with ⟨⟩ | (_ | ⟨l⟩)
      · rfl
      · rfl
      · simp only [batchHasSeventh, decide_eq_false_iff_not, not_lt] at h2
        simp [dartReadContainerTemperature, Nat.not_lt.mpr h2]
    · rfl
    · rfl
    · simp [batchHasFirst] at h1
  · rintro (⟨⟩ | (_ | ⟨(_ | ⟨r0, rest⟩)⟩)) f rand nowMs sinO h1 h2
    all_goals try simp [batchHasFirst] at h1
    all_goals {
      rcases f with ⟨⟩ | (_ | ⟨l⟩)
      · rfl
      · rfl
      · simp only [batchHasSeventh, decide_eq_false_iff_not, not_lt] at h2
        simp [jsReadTemperature, Nat.not_lt.mpr h2]
    }

/-- C1 witness: the amended behaviour at a concrete failing input. -/
theorem C1_witness :
    batchHasFirst (.ok none) = false ∧ batchHasSeventh (.error ()) = false ∧
    dartReadContainerTemperature 3 (.ok none) (.error ()) = none ∧
    jsReadTemperature false true (.ok none) (.error ()) (1/3) 7 (fun _ => 1) =
      .ok (jsMockReading (1/3) 7 (fun _ => 1), true) :=
  ⟨by decide, by decide,
   C1_both_fail_behaviour.1 3 (.ok none) (.error ()) (by decide) (by decide),
   C1_both_fail_behaviour.2 (.ok none) (.error ()) (1/3) 7 (fun _ => 1)
     (by decide) (by decide)⟩

/-- C6: over the same device register state, the primary path (10 registers
from base 2026, index 0) and the fallback path (10 registers from base 2020,
index 6) of both the JS and the Dart temperature readers decode the same
temperature — that of physical register 2026. -/
theorem C6_batch_quirk_equivalence :
    ∀ (regs : ℕ → ℕ) (now rand nowMs : ℚ) (sinO : ℚ → ℚ)
      (f : Except Unit (Option (List ℕ))),
      jsTempOf (jsReadTemperature false true (.ok (some (batchRead regs 2026 10)))
          f rand nowMs sinO) = some (tempOfRaw (regs 2026)) ∧
      jsTempOf (jsReadTemperature false true (.error ())
          (.ok (some (batchRead regs 2020 10))) rand nowMs sinO) =
        some (tempOfRaw (regs 2026)) ∧
      Option.map (fun r => r.temperature)
          (dartReadContainerTemperature now (.ok (some (batchRead regs 2026 10))) f) =
        some (tempOfRaw (regs 2026)) ∧
      Option.map (fun r => r.temperature)
          (dartReadContainerTemperature now (.error ())
            (.ok (some (batchRead regs 2020 10)))) =
        some (tempOfRaw (regs 2026)) := by
  intro regs now rand nowMs sinO f
  have hr : List.range 10 = [0, 1, 2, 3, 4, 5, 6, 7, 8, 9] := by decide
  have h26 : batchRead regs 2026 10 =
      [regs 2026, regs 2027, regs 2028, regs 2029, regs 2030, regs 2031,
       regs 2032, regs 2033, regs 2034, regs 2035] := by
    simp [batchRead, hr]
  have h20 : batchRead regs 2020 10 =
      [regs 2020, regs 2021, regs 2022, regs 2023, regs 2024, regs 2025,
       regs 2026, regs 2027, regs 2028, regs 2029] := by
    simp [batchRead, hr]
  refine ⟨?_, ?_, ?_, ?_⟩
  · rw [h26]; rfl
  · rw [h20]; rfl
  · rw [h26]; rfl
  · rw [h20]; rfl

/-- C10: the coil-write echo check succeeds exactly when the 5-byte echo has
function code 0x05 and the requested address; the written coil value is never
compared (the check is independent of it, and an echo reporting the opposite
value still passes), whereas the register-write check additionally requires
the echoed value to match. -/
theorem C10_write_echo_validation :
    (∀ (addr : ℕ) (v : Bool) (r : List ℕ),
      writeSingleCoilCheck addr v (some r) = true ↔
        r.length = 5 ∧ r.getD 0 0 = 5 ∧ u16be (r.getD 1 0) (r.getD 2 0) = addr) ∧
    (∀ (addr : ℕ) (v v' : Bool) (resp : Option (List ℕ)),
      writeSingleCoilCheck addr v resp = writeSingleCoilCheck addr v' resp) ∧
    writeSingleCoilCheck 2 true (some [5, 0, 2, 0, 0]) = true ∧
    (∀ (addr value : ℕ) (r : List ℕ),
      writeSingleRegisterCheck addr value (some r) = true ↔
        r.length = 5 ∧ r.getD 0 0 = 6 ∧ u16be (r.getD 1 0) (r.getD 2 0) = addr ∧
          u16be (r.getD 3 0) (r.getD 4 0) = value) ∧
    writeSingleRegisterCheck 2 1 (some [6, 0, 2, 0, 0]) = false ∧
    writeSingleRegisterCheck 2 1 (some [6, 0, 2, 0, 1]) = true := by
  refine ⟨fun addr v r => ?_, fun addr v v' resp => rfl, by decide,
    fun addr value r => ?_, by decide, by decide⟩
  · simp only [writeSingleCoilCheck]
    split_ifs with h
    · simp only [Bool.false_eq_true, false_iff]
      rintro ⟨-, h2, -⟩
      rw [h2] at h
      exact h (by decide)
    · simp [Bool.and_eq_true, decide_eq_true_eq, and_assoc]
  · simp only [writeSingleRegisterCheck]
    split_ifs with h
    · simp only [Bool.false_eq_true, false_iff]
      rintro ⟨-, h2, -⟩
      rw [h2] at h
      exact h (by decide)
    · simp [Bool.and_eq_true, decide_eq_true_eq, and_assoc]

/-- The bytes written by `setUint16` for an in-range value. -/
theorem u16beBytes_of_lt {x : ℕ} (hx : x < 65536) :
    u16beBytes x = [x / 256, x % 256] := by
  simp [u16beBytes, Nat.mod_eq_of_lt hx]

/-- `encodeFrame` in explicit cons form, under the bounds that keep the
header fields from truncating. -/
theorem encodeFrame_cons (pdu : List ℕ) (uid tid : ℕ)
    (h2 : pdu.length ≤ 65534) (h3 : uid ≤ 255) (h4 : tid ≤ 65535) :
    encodeFrame pdu uid tid =
      tid / 256 :: tid % 256 :: 0 :: 0 :: (1 + pdu.length) / 256 ::
        (1 + pdu.length) % 256 :: uid :: pdu := by
  rw [encodeFrame, u16beBytes_of_lt (by omega : tid < 65536),
      u16beBytes_of_lt (by omega : (0 : ℕ) < 65536),
      u16beBytes_of_lt (by omega : 1 + pdu.length < 65536),
      Nat.mod_eq_of_lt (by omega : uid < 256)]
  rfl

/-- C4 counterexample: for a PDU of 65535 bytes the encoder's 16-bit length
field wraps to zero, and decoding the encoded frame does not return the
original frame (the claim quantifies over *every* PDU of length ≥ 1). -/
theorem C4_counterexample :
    decodeFrame (encodeFrame hugePdu 1 0) ≠
      some { transactionId := 0, unitId := 1, pdu := hugePdu } := by
  have hlen : hugePdu.length = 65535 := by
    rw [hugePdu]
    exact List.length_replicate 65535 0
  have h7 : ∀ (a b c d e f g : ℕ) (l : List ℕ),
      (a :: b :: c :: d :: e :: f :: g :: l).length = l.length + 7 := by
    intro a b c d e f g l
    simp only [List.length_cons]
  have henc : encodeFrame hugePdu 1 0 =
      0 :: 0 :: 0 :: 0 :: 0 :: 0 :: 1 :: hugePdu := by
    rw [encodeFrame, hlen]
    rw [show u16beBytes 0 = [0, 0] from by decide,
        show u16beBytes (1 + 65535) = [0, 0] from by decide,
        show (1 : ℕ) % 256 = 1 from by decide]
    rfl
  have hl : (0 :: 0 :: 0 :: 0 :: 0 :: 0 :: 1 :: hugePdu).length = 65542 := by
    rw [h7, hlen]
  have hgetD : ∀ i : ℕ, i < 7 →
      (0 :: 0 :: 0 :: 0 :: 0 :: 0 :: 1 :: hugePdu).getD 4 0 = 0 ∧
      (0 :: 0 :: 0 :: 0 :: 0 :: 0 :: 1 :: hugePdu).getD 5 0 = 0 ∧
      (0 :: 0 :: 0 :: 0 :: 0 :: 0 :: 1 :: hugePdu).getD 2 0 = 0 ∧
      (0 :: 0 :: 0 :: 0 :: 0 :: 0 :: 1 :: hugePdu).getD 3 0 = 0 := by
    intro i _
    refine ⟨rfl, rfl, rfl, rfl⟩
  have hdart : dartSublist (0 :: 0 :: 0 :: 0 :: 0 :: 0 :: 1 :: hugePdu) 7
      (6 + u16be 0 0) = none := by
    rw [dartSublist, if_neg]
    rintro ⟨hcontra, -⟩
    revert hcontra
    decide
  have hdec : decodeFrame (encodeFrame hugePdu 1 0) = none := by
    rw [henc, decodeFrame, hl]
    obtain ⟨g4, g5, g2, g3⟩ := hgetD 0 (by omega)
    rw [g4, g5, g2, g3]
    rw [if_neg (by omega : ¬(65542 < 8)),
        if_neg (by simp [u16be] : ¬(u16be 0 0 ≠ 0)),
        if_neg (by simp [u16be] : ¬(65542 < 6 + u16be 0 0)),
        hdart]
    rfl
  rw [hdec]
  exact fun hcon => Option.noConfusion hcon

/-- C4 (amended): for every PDU with `1 ≤ length ≤ 65534`, every unit id
≤ 255 and transaction id ≤ 65535, decoding the encoded frame returns exactly
the original transaction id, unit id and PDU; within those bounds the encoder
sets the length field to `1 + len(pdu)` and the protocol id to 0; and the
decoder rejects any buffer with a nonzero protocol id or one whose byte count
does not cover the declared length.  (The bound 65534, forced by the 16-bit
length field, is the only strengthening over the original claim.) -/
theorem C4_frame_codec :
    (∀ (pdu : List ℕ) (uid tid : ℕ),
      1 ≤ pdu.length → pdu.length ≤ 65534 → uid ≤ 255 → tid ≤ 65535 →
      decodeFrame (encodeFrame pdu uid tid) =
        some { transactionId := tid, unitId := uid, pdu := pdu } ∧
      u16be ((encodeFrame pdu uid tid).getD 4 0) ((encodeFrame pdu uid tid).getD 5 0) =
        1 + pdu.length ∧
      u16be ((encodeFrame pdu uid tid).getD 2 0) ((encodeFrame pdu uid tid).getD 3 0) =
        0) ∧
    (∀ data : List ℕ, u16be (data.getD 2 0) (data.getD 3 0) ≠ 0 →
      decodeFrame data = none) ∧
    (∀ data : List ℕ, data.length < 6 + u16be (data.getD 4 0) (data.getD 5 0) →
      decodeFrame data = none) := by
  have hu16 : ∀ x : ℕ, u16be (x / 256) (x % 256) = x := by
    intro x
    simp only [u16be]
    omega
  have hpid0 : u16be 0 0 = 0 := by decide
  refine ⟨fun pdu uid tid h1 h2 h3 h4 => ?_, fun data hp => ?_, fun data hl => ?_⟩
  · rw [encodeFrame_cons pdu uid tid h2 h3 h4]
    have hl7 : (tid / 256 :: tid % 256 :: 0 :: 0 :: (1 + pdu.length) / 256 ::
        (1 + pdu.length) % 256 :: uid :: pdu).length = 7 + pdu.length := by
      simp only [List.length_cons]
      omega
    refine ⟨?_, ?_, ?_⟩
    · rw [decodeFrame, hl7]
      simp only [List.getD_cons_zero, List.getD_cons_succ]
      rw [hu16 tid, hu16 (1 + pdu.length), hpid0]
      rw [if_neg (by omega : ¬(7 + pdu.length < 8)),
          if_neg (by simp : ¬((0 : ℕ) ≠ 0)),
          if_neg (by omega : ¬(7 + pdu.length < 6 + (1 + pdu.length)))]
      have hsub : dartSublist (tid / 256 :: tid % 256 :: 0 :: 0 ::
          (1 + pdu.length) / 256 :: (1 + pdu.length) % 256 :: uid :: pdu) 7
          (6 + (1 + pdu.length)) = some pdu := by
        rw [dartSublist, if_pos (by rw [hl7]; omega)]
        have h6 : 6 + (1 + pdu.length) = 7 + pdu.length := by omega
        rw [h6, List.take_of_length_le (le_of_eq hl7)]
        rfl
      rw [hsub]
      rfl
    · simp only [List.getD_cons_zero, List.getD_cons_succ]
      exact hu16 (1 + pdu.length)
    · simp only [List.getD_cons_zero, List.getD_cons_succ]
      exact hpid0
  · rw [decodeFrame]
    by_cases h8 : data.length < 8
    · rw [if_pos h8]
    · rw [if_neg h8, if_pos hp]
  · rw [decodeFrame]
    by_cases h8 : data.length < 8
    · rw [if_pos h8]
    · rw [if_neg h8]
      by_cases hp' : u16be (data.getD 2 0) (data.getD 3 0) ≠ 0
      · rw [if_pos hp']
      · rw [if_neg hp', if_pos hl]

/-- C4 witness: the amended round trip at a concrete read-request PDU. -/
theorem C4_witness :
    1 ≤ ([3, 0, 10, 0, 2] : List ℕ).length ∧
    decodeFrame (encodeFrame [3, 0, 10, 0, 2] 1 65535) =
      some { transactionId := 65535, unitId := 1, pdu := [3, 0, 10, 0, 2] } :=
  ⟨by decide,
   (C4_frame_codec.1 [3, 0, 10, 0, 2] 1 65535 (by decide) (by decide)
     (by decide) (by decide)).1⟩

/-- A constraint step either leaves the dwell state untouched, or (when it
allows a transition) flips the state, stamps `now`, and the relevant minimum
dwell had elapsed. -/
theorem applyConstraintsCore_cases (minOn minOff : ℚ) (d : DwellState)
    (desired : Bool) (now : ℚ) :
    (applyConstraintsCore minOn minOff d desired now).2 = d ∨
    ((applyConstraintsCore minOn minOff d desired now).2 =
        { isOn := desired, lastTransitionAt := now } ∧
      desired = !d.isOn ∧
      (if d.isOn then minOn else minOff) ≤ now - d.lastTransitionAt) := by
  rw [applyConstraintsCore]
  by_cases he : d.isOn = desired
  · rw [if_pos he]
    exact Or.inl rfl
  · rw [if_neg he]
    cases hon : d.isOn with
    | true =>
        by_cases hlt : now - d.lastTransitionAt < minOn
        · rw [if_pos (by simp [hlt])]
          exact Or.inl rfl
        · rw [if_neg (by simp [hlt]), if_neg (by simp)]
          refine Or.inr ⟨rfl, ?_, by simpa using le_of_not_lt hlt⟩
          cases desired <;> simp_all
    | false =>
        by_cases hlt : now - d.lastTransitionAt < minOff
        · rw [if_neg (by simp), if_pos (by simp [hlt])]
          exact Or.inl rfl
        · rw [if_neg (by simp), if_neg (by simp [hlt])]
          refine Or.inr ⟨rfl, ?_, by simpa using le_of_not_lt hlt⟩
          cases desired <;> simp_all

/-- If the dwell state is unchanged by a step, its `isOn` flag is unchanged;
conversely a step that changes `isOn` is the transition case. -/
theorem applyConstraintsCore_of_flip (minOn minOff : ℚ) (d : DwellState)
    (desired : Bool) (now : ℚ)
    (hflip : ((applyConstraintsCore minOn minOff d desired now).2).isOn ≠ d.isOn) :
    (applyConstraintsCore minOn minOff d desired now).2 =
      { isOn := desired, lastTransitionAt := now } ∧
    desired = !d.isOn ∧
    (if d.isOn then minOn else minOff) ≤ now - d.lastTransitionAt := by
  rcases applyConstraintsCore_cases minOn minOff d desired now with h | h
  · rw [h] at hflip
    exact absurd rfl hflip
  · exact h

/-- A non-transition step leaves the dwell state entirely unchanged. -/
theorem applyConstraintsCore_of_no_flip (minOn minOff : ℚ) (d : DwellState)
    (desired : Bool) (now : ℚ)
    (hflip : ¬((applyConstraintsCore minOn minOff d desired now).2).isOn ≠ d.isOn) :
    (applyConstraintsCore minOn minOff d desired now).2 = d := by
  rcases applyConstraintsCore_cases minOn minOff d desired now with h | h
  · exact h
  · exfalso
    apply hflip
    rw [h.1, h.2.1]
    cases d.isOn <;> simp

/-- The first logged transition out of dwell state `d` happens no earlier
than the relevant minimum dwell after `d.lastTransitionAt`, and flips `d`'s
state. -/
theorem transitionLog_head (minOn minOff : ℚ) (d : DwellState)
    (inputs : List (Bool × ℚ)) :
    ∀ t s', (transitionLog minOn minOff d inputs).head? = some (t, s') →
      (if d.isOn then minOn else minOff) ≤ t - d.lastTransitionAt ∧ s' = !d.isOn := by
  induction inputs generalizing d with
  | nil => intro t s' h; simp [transitionLog] at h
  | cons input rest ih =>
      intro t s' h
      obtain ⟨desired, now⟩ := input
      rw [transitionLog] at h
      by_cases hflip :
          ((applyConstraintsCore minOn minOff d desired now).2).isOn ≠ d.isOn
      · rw [if_pos hflip] at h
        obtain ⟨hst, hdes, helapsed⟩ :=
          applyConstraintsCore_of_flip minOn minOff d desired now hflip
        simp only [List.head?_cons, Option.some.injEq, Prod.mk.injEq] at h
        obtain ⟨rfl, hs'⟩ := h
        have hds : desired = s' := by rw [hst] at hs'; exact hs'
        refine ⟨helapsed, ?_⟩
        rw [← hds]
        exact hdes
      · rw [if_neg hflip] at h
        rw [applyConstraintsCore_of_no_flip minOn minOff d desired now hflip] at h
        exact ih d t s' h

/-- The boolean core of `NeuralMPCController.applyConstraints` for one
actuator: an output differing from the current state implies the relevant
dwell has elapsed. -/
theorem mpcConstraint_elapsed (isOnB actB : Bool) (tSince minOn minOff : ℚ)
    (hch : (if isOnB && !actB && decide (tSince < minOn) then true
            else if !isOnB && actB && decide (tSince < minOff) then false
            else actB) ≠ isOnB) :
    (if isOnB then minOn else minOff) ≤ tSince := by
  cases isOnB <;> cases actB <;>
    by_cases h1 : tSince < minOn <;> by_cases h2 : tSince < minOff <;>
      simp_all

/-- C2: (i) over any tick sequence with arbitrary timestamps, consecutive
transitions recorded by the RBF controller's `applyConstraints` are separated
by at least the minimum dwell of the state being left (min-on time if the
actuator was on, min-off time if it was off); (ii) when the desired state
equals the current state, the state and its transition timestamp are returned
unchanged; (iii) the `NeuralMPCController.applyConstraints` step can only
output a state different from the actuator's current one after the relevant
minimum dwell has elapsed. -/
theorem C2_dwell_enforcement :
    (∀ (minOn minOff : ℚ) (d0 : DwellState) (inputs : List (Bool × ℚ)),
      List.Chain' (fun a b : ℚ × Bool =>
          (if a.2 then minOn else minOff) ≤ b.1 - a.1)
        (transitionLog minOn minOff d0 inputs)) ∧
    (∀ (minOn minOff : ℚ) (d : DwellState) (desired : Bool) (now : ℚ),
      desired = d.isOn →
      applyConstraintsCore minOn minOff d desired now = (d.isOn, d)) ∧
    (∀ (s : MPCState) (action : MPCAction) (now : ℚ),
      ((mpcApplyConstraints s action now).peltier1 ≠ s.dwell1.isOn →
        (if s.dwell1.isOn then s.minOnTime else s.minOffTime) ≤
          now - s.dwell1.lastTransitionAt) ∧
      ((mpcApplyConstraints s action now).peltier2 ≠ s.dwell2.isOn →
        (if s.dwell2.isOn then s.minOnTime else s.minOffTime) ≤
          now - s.dwell2.lastTransitionAt)) := by
  refine ⟨fun minOn minOff d0 inputs => ?_, fun minOn minOff d desired now he => ?_,
    fun s action now =>
      ⟨fun hch => mpcConstraint_elapsed s.dwell1.isOn action.peltier1
        (now - s.dwell1.lastTransitionAt) s.minOnTime s.minOffTime hch,
       fun hch => mpcConstraint_elapsed s.dwell2.isOn action.peltier2
        (now - s.dwell2.lastTransitionAt) s.minOnTime s.minOffTime hch⟩⟩
  · induction inputs generalizing d0 with
    | nil => simp [transitionLog]
    | cons input rest ih =>
        obtain ⟨desired, now⟩ := input
        rw [transitionLog]
        by_cases hflip :
            ((applyConstraintsCore minOn minOff d0 desired now).2).isOn ≠ d0.isOn
        · rw [if_pos hflip]
          obtain ⟨hst, -, -⟩ :=
            applyConstraintsCore_of_flip minOn minOff d0 desired now hflip
          rw [List.chain'_cons']
          refine ⟨?_, ih _⟩
          intro b hb
          obtain ⟨t, s'⟩ := b
          obtain ⟨helapsed, -⟩ := transitionLog_head minOn minOff _ rest t s'
            (Option.mem_def.mp hb)
          rw [hst] at helapsed
          simpa [hst] using helapsed
        · rw [if_neg hflip]
          exact ih _
  · rw [applyConstraintsCore, if_pos he.symm]

/-- `PIDController.update` inside the sample window: no result, no state
change. -/
theorem pidUpdate_skip (s : PIDState) (currentTemp now : ℚ)
    (h : (now - s.lastTime) / 1000 < s.sampleTime / 1000) :
    pidUpdate s currentTemp now = (none, s) := by
  simp only [pidUpdate]
  rw [if_pos h]

/-- `RBFAdaptivePIDController.update` inside the 0.5 s window: no result, no
state change. -/
theorem rbfUpdate_skip (o : MathOracle) (s : RBFState) (currentTemp now : ℚ)
    (h : (now - s.lastTime) / 1000 < 1/2) :
    rbfUpdate o s currentTemp now = (none, s) := by
  simp only [rbfUpdate]
  rw [if_pos h]

/-- `StableController.update` inside the 0.5 s window: no result, no state
change. -/
theorem stableUpdate_skip (s : StableState) (currentTemp now : ℚ)
    (h : (now - s.lastTime) / 1000 < 1/2) :
    stableUpdate s currentTemp now = (none, s) := by
  simp only [stableUpdate]
  rw [if_pos h]

/-- C8 counterexample: the Neural MPC controller has no minimum-sample-window
guard.  `mpcSmallState` recorded its previous sample at t = 1000 ms; a call
only 100 ms later (well inside the ≥ 0.5 s window of the claim) still appends
to the temperature history (state change) and returns a decision object
rather than null. -/
theorem C8_counterexample :
    (mpcUpdate (fun _ => 0) 0 mpcSmallState 5 1100).2.temperatureHistory =
      [(5, 1000), (5, 1100)] ∧
    (mpcUpdate (fun _ => 0) 0 mpcSmallState 5 1100).2.temperatureHistory ≠
      mpcSmallState.temperatureHistory ∧
    (mpcUpdate (fun _ => 0) 0 mpcSmallState 5 1100).1.timestamp = 1100 := by
  refine ⟨by decide, ?_, by decide⟩
  intro hcon
  rw [show (mpcUpdate (fun _ => 0) 0 mpcSmallState 5 1100).2.temperatureHistory =
      [(5, 1000), (5, 1100)] from by decide] at hcon
  exact absurd hcon (by decide)

/-- C8 (amended): three of the four strategies enforce the sample window —
the hysteresis `StableController` (0.5 s) and the RBF adaptive controller
(0.5 s) and the PID controller (`sampleTime` ms) return null and leave the
whole controller state unchanged when `update` is called again before the
minimum sample interval; the Neural MPC `update` alone has no such guard
(see the counterexample). -/
theorem C8_sample_window_guard :
    (∀ (s : StableState) (currentTemp now : ℚ),
      (now - s.lastTime) / 1000 < 1/2 →
      stableUpdate s currentTemp now = (none, s)) ∧
    (∀ (s : PIDState) (currentTemp now : ℚ),
      (now - s.lastTime) / 1000 < s.sampleTime / 1000 →
      pidUpdate s currentTemp now = (none, s)) ∧
    (∀ (o : MathOracle) (s : RBFState) (currentTemp now : ℚ),
      (now - s.lastTime) / 1000 < 1/2 →
      rbfUpdate o s currentTemp now = (none, s)) :=
  ⟨stableUpdate_skip, pidUpdate_skip, rbfUpdate_skip⟩

/-- C8 witness: the guards at concrete controller states and times inside the
sample window. -/
theorem C8_witness :
    ((1500 : ℚ) - (pidInitialState 1000).lastTime) / 1000 <
        (pidInitialState 1000).sampleTime / 1000 ∧
    stableUpdate (stableInitialState 1000) 7 1300 = (none, stableInitialState 1000) ∧
    pidUpdate (pidInitialState 1000) 7 1500 = (none, pidInitialState 1000) ∧
    rbfUpdate trivialOracle (rbfInitialState 1000) 7 1200 =
      (none, rbfInitialState 1000) :=
  ⟨by decide,
   C8_sample_window_guard.1 (stableInitialState 1000) 7 1300 (by decide),
   C8_sample_window_guard.2.1 (pidInitialState 1000) 7 1500 (by decide),
   C8_sample_window_guard.2.2 trivialOracle (rbfInitialState 1000) 7 1200 (by decide)⟩

/-- Clamping into `[lo, hi]` lands in `[lo, hi]` when `lo ≤ hi`. -/
theorem clamp_mem {lo hi x : ℚ} (h : lo ≤ hi) :
    lo ≤ max lo (min hi x) ∧ max lo (min hi x) ≤ hi :=
  ⟨le_max_left _ _, max_le h (min_le_left _ _)⟩

/-- After `adaptPIDGains` all three gains are clamped into
`[minGain, maxGain]`, whatever they were before; the band itself is
unchanged. -/
theorem adaptPIDGains_gains (s : RBFState) (e ed : ℚ) (act : List ℚ)
    (h : s.minGain ≤ s.maxGain) :
    gainsInRange (adaptPIDGains s e ed act) ∧
    (adaptPIDGains s e ed act).minGain = s.minGain ∧
    (adaptPIDGains s e ed act).maxGain = s.maxGain :=
  ⟨⟨(clamp_mem h).1, (clamp_mem h).2, (clamp_mem h).1, (clamp_mem h).2,
    (clamp_mem h).1, (clamp_mem h).2⟩, rfl, rfl⟩

/-- One `rbfUpdate` step preserves the gain band and (given `minGain ≤
maxGain`) the in-band property of the gains; an accepted step clamps the
gains into the band unconditionally. -/
theorem rbfUpdate_gains (o : MathOracle) (s : RBFState) (t now : ℚ)
    (h : s.minGain ≤ s.maxGain) (hg : gainsInRange s) :
    gainsInRange (rbfUpdate o s t now).2 ∧
    (rbfUpdate o s t now).2.minGain = s.minGain ∧
    (rbfUpdate o s t now).2.maxGain = s.maxGain := by
  by_cases hdt : (now - s.lastTime) / 1000 < 1/2
  · rw [rbfUpdate_skip o s t now hdt]
    exact ⟨hg, rfl, rfl⟩
  · simp only [rbfUpdate]
    rw [if_neg hdt]
    exact ⟨⟨(clamp_mem h).1, (clamp_mem h).2, (clamp_mem h).1, (clamp_mem h).2,
      (clamp_mem h).1, (clamp_mem h).2⟩, rfl, rfl⟩

/-- C9: in the RBF adaptive PID controller the effective gains Kp, Ki, Kd lie
within `[minGain, maxGain]` after every update — along arbitrary sample
sequences from any in-band state (for every model of the transcendental
functions, hence for adversarial error sequences), and unconditionally after
any accepted (non-null) update. -/
theorem C9_rbf_gain_bounds :
    (∀ (o : MathOracle) (s : RBFState) (inputs : List (ℚ × ℚ)),
      s.minGain ≤ s.maxGain → gainsInRange s →
      gainsInRange (rbfRun o s inputs)) ∧
    (∀ (o : MathOracle) (s : RBFState) (t now : ℚ) (r : RBFResult),
      s.minGain ≤ s.maxGain → (rbfUpdate o s t now).1 = some r →
      gainsInRange (rbfUpdate o s t now).2) := by
  constructor
  · intro o s inputs
    induction inputs generalizing s with
    | nil => intro _ hg; exact hg
    | cons input rest ih =>
        intro h hg
        obtain ⟨t, now⟩ := input
        rw [rbfRun]
        obtain ⟨hg', hmin, hmax⟩ := rbfUpdate_gains o s t now h hg
        exact ih _ (by rw [hmin, hmax]; exact h) hg'
  · intro o s t now r h hr
    by_cases hdt : (now - s.lastTime) / 1000 < 1/2
    · rw [rbfUpdate_skip o s t now hdt] at hr
      exact absurd hr (by simp)
    · simp only [rbfUpdate]
      rw [if_neg hdt]
      exact ⟨(clamp_mem h).1, (clamp_mem h).2, (clamp_mem h).1, (clamp_mem h).2,
        (clamp_mem h).1, (clamp_mem h).2⟩

/-- C9 witness: the trace bound from the constructor-default RBF state over a
concrete two-sample run. -/
theorem C9_witness :
    (rbfInitialState 0).minGain ≤ (rbfInitialState 0).maxGain ∧
    gainsInRange (rbfRun trivialOracle (rbfInitialState 0) [(7, 1000), (3, 2500)]) :=
  ⟨by decide, C9_rbf_gain_bounds.1 trivialOracle (rbfInitialState 0)
    [(7, 1000), (3, 2500)] (by decide) (by decide)⟩

/-- C2 witness: the trace separation on a concrete run with two transitions,
the unchanged-state case at a concrete input, and the MPC dwell bound at a
concrete state whose constrained action flips actuator 1. -/
theorem C2_witness :
    List.Chain' (fun a b : ℚ × Bool => (if a.2 then (3000 : ℚ) else 2000) ≤ b.1 - a.1)
      (transitionLog 3000 2000 ⟨false, 0⟩ [(true, 2000), (false, 5000)]) ∧
    applyConstraintsCore 3000 2000 ⟨true, 7⟩ true 9 = (true, ⟨true, 7⟩) ∧
    (if mpcSmallState.dwell1.isOn then mpcSmallState.minOnTime
     else mpcSmallState.minOffTime) ≤ 2500 - mpcSmallState.dwell1.lastTransitionAt :=
  ⟨C2_dwell_enforcement.1 3000 2000 ⟨false, 0⟩ [(true, 2000), (false, 5000)],
   C2_dwell_enforcement.2.1 3000 2000 ⟨true, 7⟩ true 9 rfl,
   (C2_dwell_enforcement.2.2 mpcSmallState ⟨true, false⟩ 2500).1 (by decide)⟩

end Peltier
